import Mathlib

/-!
Verification of the opentrack SteamVR tracker (src/tracker-steamvr/steamvr.cpp)
and the shortcut reload logic (src/logic/shortcuts.cpp), as a shallow embedding
in Lean 4.

The external OpenVR runtime is modelled as an oracle structure `IVRSystem`
holding the per-slot answers the hardware would give; the runtime handle
`vr_t` is `Option IVRSystem` (`none` = null handle, i.e. `vr::VR_Init`
failed).  Dereferencing the null handle (undefined behaviour in the C++
source) is modelled by returning `none` from the embedded function, so a
function that returns `some r` provably did not touch a null handle.
-/

/-- Device classes of `vr::ETrackedDeviceClass` used by the source. -/
inductive TrackedDeviceClass where
  | Invalid
  | HMD
  | Controller
  | GenericTracker
  | TrackingReference
  | DisplayRedirect
deriving DecidableEq, Repr

/-- The SDK constant `vr::k_unMaxTrackedDeviceCount` (16 in the vendored
OpenVR headers). -/
def k_unMaxTrackedDeviceCount : Nat := 16

/-- `max_devices` from steamvr.hpp: the number of hardware slots, equal to the
SDK constant. -/
def max_devices : Nat := k_unMaxTrackedDeviceCount

/-- `vr::TrackedDevicePose_t` (aliased `pose_t` in the source): a 3x4
device-to-absolute-tracking matrix plus the validity and connectivity flags.
Matrix entries are modelled as real numbers. -/
structure pose_t where
  mDeviceToAbsoluteTracking : Fin 3 → Fin 4 → ℝ
  bPoseIsValid : Bool
  bDeviceIsConnected : Bool

/-- The value-initialised `pose_t{}` of the source: zero matrix, both flags
false. -/
def pose_zero : pose_t :=
  { mDeviceToAbsoluteTracking := fun _ _ => 0
    bPoseIsValid := false
    bDeviceIsConnected := false }

/-- Oracle model of the `vr::IVRSystem` interface: what the hardware answers
for each slot index.  `seatedPose k` is slot `k` of the array filled by
`GetDeviceToAbsoluteTrackingPose(TrackingUniverseSeated, 0, ...)`;
`serialNumber`/`modelNumber` are the `GetStringTrackedDeviceProperty` results
(`none` models a zero returned length, i.e. fetch failure). -/
structure IVRSystem where
  deviceClass : Nat → TrackedDeviceClass
  seatedPose : Nat → pose_t
  serialNumber : Nat → Option String
  modelNumber : Nat → Option String

/-- `vr_t`: the runtime handle; `none` is the null handle after a failed
`vr::VR_Init`. -/
abbrev vr_t := Option IVRSystem

/-- `error_t` (`vr::EVRInitError`), modelled as a numeric code. -/
abbrev error_t := Nat

/-- `device_list::get_pose(int k)` from steamvr.cpp:119-143.
Out-of-range `k` returns `(false, pose_t{})` before any hardware access.
Otherwise the body of the `with_vr_lock` lambda runs: it calls
`v->GetDeviceToAbsoluteTrackingPose(...)` with NO null check on `v`, so a
null handle is dereferenced — modelled by the `none` result.  With a live
handle it returns `(true, poses[k])` when both flags are set, else
`(false, pose_t{})`. -/
def get_pose (v : vr_t) (k : Int) : Option (Bool × pose_t) :=
  if k < 0 ∨ ¬(k < (max_devices : Int)) then
    some (false, pose_zero)
  else
    match v with
    | none => none
    | some sys =>
      let pose := sys.seatedPose k.toNat
      if pose.bPoseIsValid ∧ pose.bDeviceIsConnected then
        some (true, pose)
      else
        some (false, pose_zero)

/-- A concrete hardware oracle used to instantiate theorems: slot 0 is a
connected HMD with a valid all-zero pose, every other slot is invalid. -/
def demo_sys : IVRSystem :=
  { deviceClass := fun k => if k = 0 then .HMD else .Invalid
    seatedPose := fun _ =>
      { mDeviceToAbsoluteTracking := fun _ _ => 0
        bPoseIsValid := true
        bDeviceIsConnected := true }
    serialNumber := fun _ => some "SN-0"
    modelNumber := fun _ => some "Vive MV" }

/-- A second concrete oracle: slot 0 is a connected HMD whose pose is
flagged invalid. -/
def demo_sys_invalid_pose : IVRSystem :=
  { deviceClass := fun k => if k = 0 then .HMD else .Invalid
    seatedPose := fun _ =>
      { mDeviceToAbsoluteTracking := fun _ _ => 0
        bPoseIsValid := false
        bDeviceIsConnected := true }
    serialNumber := fun _ => some "SN-0"
    modelNumber := fun _ => some "Vive MV" }

/-- C1: the claim says that with a null runtime handle `get_pose k` returns
`{valid:false}` and never dereferences the handle.  The code violates this:
for an in-range index the `with_vr_lock` lambda unconditionally calls
`v->GetDeviceToAbsoluteTrackingPose` through the null handle (steamvr.cpp:128,
no `if (v)` guard, unlike `fill_device_specs` and `center`), which the
embedding records as the crash value `none` instead of
`some (false, pose_zero)`. -/
theorem C1_get_pose_null_handle_dereferences : get_pose none 0 = none := rfl

/-- C3: `get_pose` returns `(false, pose_t{})` for every out-of-range index
without touching the handle (the result is the same for every handle value,
including the null handle, which would crash if accessed); and for every
in-range index on a live handle it returns a result whose validity flag is
true iff both the hardware pose-validity flag and connectivity flag of that
slot are true. -/
theorem C3_get_pose_range_and_validity (v : vr_t) (k : Int) :
    ((k < 0 ∨ (max_devices : Int) ≤ k) → get_pose v k = some (false, pose_zero)) ∧
    (∀ sys : IVRSystem, v = some sys → 0 ≤ k → k < (max_devices : Int) →
      ∃ r : Bool × pose_t, get_pose v k = some r ∧
        r.1 = ((sys.seatedPose k.toNat).bPoseIsValid &&
               (sys.seatedPose k.toNat).bDeviceIsConnected)) := by
  constructor
  · intro hk
    unfold get_pose
    rw [if_pos]
    rcases hk with h | h
    · exact Or.inl h
    · exact Or.inr (not_lt.mpr h)
  · intro sys hv h0 hlt
    subst hv
    unfold get_pose
    rw [if_neg]
    · dsimp only
      by_cases hflags :
          (sys.seatedPose k.toNat).bPoseIsValid ∧ (sys.seatedPose k.toNat).bDeviceIsConnected
      · refine ⟨(true, sys.seatedPose k.toNat), ?_, ?_⟩
        · rw [if_pos hflags]
        · rcases hflags with ⟨h1, h2⟩
          simp [h1, h2]
      · refine ⟨(false, pose_zero), ?_, ?_⟩
        · rw [if_neg hflags]
        · rcases Classical.em ((sys.seatedPose k.toNat).bPoseIsValid = true) with h1 | h1
          · rcases Classical.em ((sys.seatedPose k.toNat).bDeviceIsConnected = true) with h2 | h2
            · exact absurd ⟨h1, h2⟩ hflags
            · simp [Bool.eq_false_iff.mpr h2]
          · simp [Bool.eq_false_iff.mpr h1]
    · push_neg
      exact ⟨h0, hlt⟩

/-- Witness for C3: the out-of-range branch at `k = -1` on the null handle,
and the in-range branch at `k = 0` on the demo oracle whose slot-0 flags are
both true. -/
theorem C3_get_pose_range_and_validity_witness :
    get_pose none (-1) = some (false, pose_zero) ∧
    (∃ r : Bool × pose_t, get_pose (some demo_sys) 0 = some r ∧
        r.1 = ((demo_sys.seatedPose 0).bPoseIsValid &&
               (demo_sys.seatedPose 0).bDeviceIsConnected)) := by
  constructor
  · exact (C3_get_pose_range_and_validity none (-1)).1 (Or.inl (by norm_num))
  · have h := (C3_get_pose_range_and_validity (some demo_sys) 0).2 demo_sys rfl
      (by norm_num) (by norm_num [max_devices, k_unMaxTrackedDeviceCount])
    simpa using h

/-- C9: whenever `get_pose` returns with validity flag false — out-of-range
index or invalid/disconnected pose — the accompanying pose payload is the
value-initialised `pose_t{}` (zero matrix, false flags), never hardware
data. -/
theorem C9_invalid_pose_payload_is_zero (v : vr_t) (k : Int) (p : pose_t)
    (h : get_pose v k = some (false, p)) : p = pose_zero := by
  unfold get_pose at h
  by_cases hk : k < 0 ∨ ¬(k < (max_devices : Int))
  · rw [if_pos hk] at h
    exact ((Prod.mk.injEq _ _ _ _).mp (Option.some.injEq _ _ ▸ h :)).2.symm ▸ rfl
  · rw [if_neg hk] at h
    match v with
    | none => exact absurd h (by simp)
    | some sys =>
      dsimp only at h
      by_cases hflags :
          (sys.seatedPose k.toNat).bPoseIsValid ∧ (sys.seatedPose k.toNat).bDeviceIsConnected
      · rw [if_pos hflags] at h
        exact absurd (((Prod.mk.injEq _ _ _ _).mp (Option.some.inj h)).1) (by simp)
      · rw [if_neg hflags] at h
        exact (((Prod.mk.injEq _ _ _ _).mp (Option.some.inj h)).2).symm

/-- Witness for C9: the out-of-range call `get_pose none (-1)` returns
validity false, and the theorem applied there gives the zero payload. -/
theorem C9_invalid_pose_payload_is_zero_witness :
    get_pose none (-1) = some (false, pose_zero) ∧ pose_zero = pose_zero :=
  ⟨rfl, C9_invalid_pose_payload_is_zero none (-1) pose_zero (by rfl)⟩

/-- `tt = std::tuple<vr_t, error_t>`: the cached initialization outcome. -/
abbrev tt := vr_t × error_t

/-- One call to `device_list::vr_init()` (steamvr.cpp:145-149), which reads
`static tt t = vr_init_();`.  `hw` is the outcome `vr_init_()` would produce
(the result of `vr::VR_Init`, possibly a null handle plus an error code);
`cache` is the state of the function-local static.  Returns the value the
call yields, the new cache state, and whether `vr_init_` actually executed
during this call. -/
def vr_init_call (hw : tt) : Option tt → tt × Option tt × Bool
  | some t => (t, some t, false)
  | none => (hw, some hw, true)

/-- A sequence of `n` successive `vr_init` calls starting from cache state
`cache`: the list of returned values and the total number of times `vr_init_`
(the real hardware initialization) executed. -/
def vr_init_run (hw : tt) : Nat → Option tt → List tt × Nat
  | 0, _ => ([], 0)
  | n + 1, cache =>
    let step := vr_init_call hw cache
    let rest := vr_init_run hw n step.2.1
    (step.1 :: rest.1, (if step.2.2 then 1 else 0) + rest.2)

/-- Once the static is populated with `t`, every later call returns `t` and
never executes `vr_init_` again. -/
theorem vr_init_run_cached (hw t : tt) :
    ∀ n : Nat, vr_init_run hw n (some t) = (List.replicate n t, 0) := by
  intro n
  induction n with
  | zero => rfl
  | succ n ih => simp [vr_init_run, vr_init_call, ih, List.replicate_succ]

/-- C2: over every sequence of `vr_init` calls from the initial (unattempted)
state, the hardware initialization `vr_init_` executes at most once — whatever
its outcome `hw`, including a failed attempt (null handle) — and every call
returns the same cached pair `hw`. -/
theorem C2_vr_init_once_and_cached (hw : tt) (n : Nat) :
    (vr_init_run hw n none).2 ≤ 1 ∧
    ∀ r ∈ (vr_init_run hw n none).1, r = hw := by
  cases n with
  | zero => exact ⟨by simp [vr_init_run], by simp [vr_init_run]⟩
  | succ n =>
    have hrun : vr_init_run hw (n + 1) none = (hw :: List.replicate n hw, 1) := by
      simp [vr_init_run, vr_init_call, vr_init_run_cached hw hw n]
    rw [hrun]
    refine ⟨le_refl 1, ?_⟩
    intro r hr
    rcases List.mem_cons.mp hr with h | h
    · exact h
    · exact List.eq_of_mem_replicate h

/-- Predicate of the `continue` filters in `fill_device_specs`
(steamvr.cpp:62-87): slot `k` survives iff its class is neither `Invalid` nor
`TrackingReference`, its connectivity flag from the batched pose query is
true, and both string-property fetches return a nonzero length. -/
def slot_passes (sys : IVRSystem) (k : Nat) : Prop :=
  ¬(sys.deviceClass k = .Invalid ∨ sys.deviceClass k = .TrackingReference) ∧
  (sys.seatedPose k).bDeviceIsConnected = true ∧
  (sys.serialNumber k).isSome = true ∧
  (sys.modelNumber k).isSome = true

instance (sys : IVRSystem) (k : Nat) : Decidable (slot_passes sys k) := by
  unfold slot_passes; infer_instance

/-- `device_spec` from steamvr.hpp, filled by `fill_device_specs`. -/
structure device_spec where
  serial : String
  model : String
  type : String
  pose : pose_t
  k : Nat

/-- The `switch` on the device class (steamvr.cpp:89-97). -/
def class_name : TrackedDeviceClass → String
  | .HMD => "HMD"
  | .Controller => "Controller"
  | _ => "Unknown"

/-- The `device_spec` built for a surviving slot `k` (steamvr.cpp:78-103),
assuming both string fetches succeeded (`getD` default is irrelevant then). -/
def mk_device_spec (sys : IVRSystem) (k : Nat) : device_spec :=
  { serial := (sys.serialNumber k).getD ""
    model := (sys.modelNumber k).getD ""
    type := class_name (sys.deviceClass k)
    pose := sys.seatedPose k
    k := k }

/-- The loop body of `fill_device_specs` for one slot: `none` when any
`continue` fires, otherwise the spec pushed onto the list. -/
def fill_slot (sys : IVRSystem) (k : Nat) : Option device_spec :=
  if sys.deviceClass k = .Invalid ∨ sys.deviceClass k = .TrackingReference then
    none
  else if !(sys.seatedPose k).bDeviceIsConnected then
    none
  else
    match sys.serialNumber k with
    | none => none
    | some serial =>
      match sys.modelNumber k with
      | none => none
      | some model =>
        some { serial
               model
               type := class_name (sys.deviceClass k)
               pose := sys.seatedPose k
               k := k }

/-- `device_list::fill_device_specs` (steamvr.cpp:43-107): with a null handle
the cleared list stays empty; otherwise the loop over slots
`0 .. k_unMaxTrackedDeviceCount - 1` appends the spec of each surviving
slot. -/
def fill_device_specs (v : vr_t) : List device_spec :=
  match v with
  | none => []
  | some sys => (List.range k_unMaxTrackedDeviceCount).filterMap (fill_slot sys)

/-- `fill_slot` is exactly: the spec of `k` when `slot_passes`, else
nothing. -/
theorem fill_slot_eq (sys : IVRSystem) (k : Nat) :
    fill_slot sys k =
      if slot_passes sys k then some (mk_device_spec sys k) else none := by
  unfold fill_slot slot_passes mk_device_spec
  by_cases hc : sys.deviceClass k = .Invalid ∨ sys.deviceClass k = .TrackingReference
  · rw [if_pos hc, if_neg (fun hpass => hpass.1 hc)]
  · rw [if_neg hc]
    by_cases hconn : (sys.seatedPose k).bDeviceIsConnected = true
    · rw [if_neg (by simp [hconn])]
      by_cases hser : (sys.serialNumber k).isSome = true
      · obtain ⟨serial, hs⟩ := Option.isSome_iff_exists.mp hser
        simp only [hs]
        by_cases hmod : (sys.modelNumber k).isSome = true
        · obtain ⟨model, hm⟩ := Option.isSome_iff_exists.mp hmod
          simp only [hm]
          rw [if_pos ⟨hc, hconn, by simp, by simp⟩]
          simp
        · simp only [Option.not_isSome_iff_eq_none.mp hmod]
          rw [if_neg (by simp)]
      · simp only [Option.not_isSome_iff_eq_none.mp hser]
        rw [if_neg (by simp)]
    · simp only [Bool.not_eq_true] at hconn
      rw [if_pos (by simp [hconn]),
          if_neg (fun hpass => by rw [hconn] at hpass; exact absurd hpass.2.1 (by simp))]

/-- C4: for every hardware state, the enumeration result is exactly the
ascending-ordered list of slots that pass all four checks (class not
Invalid/TrackingReference, connected, serial fetched, model fetched), each
mapped to its `device_spec`; in particular skipped slots do not stop the
loop, and the slot indices of the output are strictly increasing. -/
theorem C4_fill_device_specs_exact_and_sorted (sys : IVRSystem) :
    fill_device_specs (some sys) =
      ((List.range k_unMaxTrackedDeviceCount).filter
        (fun k => decide (slot_passes sys k))).map (mk_device_spec sys) ∧
    (fill_device_specs (some sys)).Pairwise (fun a b => a.k < b.k) := by
  have hmain : fill_device_specs (some sys) =
      ((List.range k_unMaxTrackedDeviceCount).filter
        (fun k => decide (slot_passes sys k))).map (mk_device_spec sys) := by
    show (List.range k_unMaxTrackedDeviceCount).filterMap (fill_slot sys) = _
    generalize List.range k_unMaxTrackedDeviceCount = l
    induction l with
    | nil => rfl
    | cons a l ih =>
      rw [List.filterMap_cons, List.filter_cons, fill_slot_eq]
      by_cases h : slot_passes sys a
      · rw [if_pos h]
        simp [h, ih]
      · rw [if_neg h]
        simp [h, ih]
  refine ⟨hmain, ?_⟩
  rw [hmain]
  rw [List.pairwise_map]
  have : ((List.range k_unMaxTrackedDeviceCount).filter
      (fun k => decide (slot_passes sys k))).Pairwise (· < ·) :=
    (List.pairwise_lt_range _).filter _
  exact this.imp (fun h => h)

/-- `device_spec::to_string` (steamvr.cpp:304-307):
`QStringLiteral("<%1> %2 [%3]").arg(type).arg(model).arg(serial)`. -/
def device_spec.to_string (s : device_spec) : String :=
  "<" ++ s.type ++ "> " ++ s.model ++ " [" ++ s.serial ++ "]"

/-- The tracker's only binding state: `steamvr::device_index`, `-1` when
unbound (steamvr.cpp:170). -/
structure steamvr_state where
  device_index : Int
deriving DecidableEq, Repr

/-- The three `QMessageBox::warning` outcomes of `start_tracker`. -/
inductive start_warning where
  | init_error
  | no_hmd
  | serial_not_found
deriving DecidableEq, Repr

/-- The selection loop of `start_tracker` (steamvr.cpp:204-213): starting
from `device_index = -1`, take the first spec matching the serial (empty
serial matches everything) and bind its hardware slot index. -/
def select_loop (serial : String) : List device_spec → Int
  | [] => -1
  | spec :: rest =>
    if serial = "" ∨ serial = spec.to_string then (spec.k : Int)
    else select_loop serial rest

/-- `steamvr::start_tracker` (steamvr.cpp:178-223): under the lock with the
cached init result, a null handle warns and leaves the state alone; an empty
fresh enumeration warns and leaves the state alone; otherwise the selection
loop runs and a failed match warns with "Can't find device with that
serial". -/
def start_tracker (v : vr_t) (serial : String) (st : steamvr_state) :
    steamvr_state × Option start_warning :=
  match v with
  | none => (st, some .init_error)
  | some sys =>
    let specs := fill_device_specs (some sys)
    if specs.length = 0 then
      (st, some .no_hmd)
    else
      let idx := select_loop serial specs
      (⟨idx⟩, if idx = -1 then some .serial_not_found else none)

/-- With a nonempty serial, the selection loop returns the slot of the first
spec whose formatted identity equals the serial, and `-1` when none does. -/
theorem select_loop_find (serial : String) (hs : serial ≠ "")
    (specs : List device_spec) :
    select_loop serial specs =
      match specs.find? (fun d => serial = d.to_string) with
      | some d => (d.k : Int)
      | none => -1 := by
  induction specs with
  | nil => rfl
  | cons spec rest ih =>
    by_cases h : serial = spec.to_string
    · rw [select_loop, if_pos (Or.inr h),
          List.find?_cons_of_pos _ (by simp [h])]
    · rw [select_loop, if_neg (by
        rintro (h1 | h2)
        · exact hs h1
        · exact h h2),
          List.find?_cons_of_neg _ (by simp [h]), ih]

/-- With the empty serial, the selection loop binds the first listed
device. -/
theorem select_loop_empty_serial (specs : List device_spec) (h : specs ≠ []) :
    select_loop "" specs = ((specs.head h).k : Int) := by
  cases specs with
  | nil => exact absurd rfl h
  | cons spec rest => rw [select_loop, if_pos (Or.inl rfl)]; rfl

/-- A hardware slot index never equals the unbound sentinel `-1`. -/
theorem slot_ne_neg_one (n : Nat) : (n : Int) ≠ -1 := by omega

/-- C5: on a session with at least one enumerated device, `start_tracker`
with the empty serial binds the first listed device's slot and raises no
warning; with a nonempty serial it binds the slot of the first device whose
`to_string` equals the serial, and when no device matches, `device_index`
ends at the unbound sentinel `-1` and the "Can't find device with that
serial" warning is raised. -/
theorem C5_start_tracker_selection (sys : IVRSystem) (serial : String)
    (st : steamvr_state) (h : fill_device_specs (some sys) ≠ []) :
    (serial = "" →
      start_tracker (some sys) serial st =
        (⟨(((fill_device_specs (some sys)).head h).k : Int)⟩, none)) ∧
    (serial ≠ "" →
      match (fill_device_specs (some sys)).find?
          (fun d => serial = d.to_string) with
      | some d => start_tracker (some sys) serial st = (⟨(d.k : Int)⟩, none)
      | none =>
          start_tracker (some sys) serial st =
            (⟨-1⟩, some .serial_not_found)) := by
  have hlen : ¬(fill_device_specs (some sys)).length = 0 := by
    intro h0
    exact h (List.length_eq_zero.mp h0)
  constructor
  · intro hserial
    subst hserial
    show (if (fill_device_specs (some sys)).length = 0 then _ else _) = _
    rw [if_neg hlen]
    rw [select_loop_empty_serial _ h,
        if_neg (slot_ne_neg_one ((fill_device_specs (some sys)).head h).k)]
  · intro hserial
    cases hfind : (fill_device_specs (some sys)).find?
        (fun d => serial = d.to_string) with
    | some d =>
      show (if (fill_device_specs (some sys)).length = 0 then _ else _) = _
      rw [if_neg hlen]
      rw [select_loop_find serial hserial, hfind]
      rw [if_neg (slot_ne_neg_one d.k)]
    | none =>
      show (if (fill_device_specs (some sys)).length = 0 then _ else _) = _
      rw [if_neg hlen]
      rw [select_loop_find serial hserial, hfind]
      rfl

/-- Witness for C5: on the demo oracle (exactly one device at slot 0), the
empty serial binds slot 0 with no warning, and an unmatched serial leaves
`device_index = -1` with the serial-not-found warning. -/
theorem C5_start_tracker_selection_witness :
    start_tracker (some demo_sys) "" ⟨-1⟩ = (⟨0⟩, none) ∧
    start_tracker (some demo_sys) "no such serial" ⟨-1⟩ =
      (⟨-1⟩, some .serial_not_found) := by
  have he : fill_device_specs (some demo_sys) = [mk_device_spec demo_sys 0] := by
    rfl
  have h : fill_device_specs (some demo_sys) ≠ [] := by
    rw [he]
    exact List.cons_ne_nil _ _
  constructor
  · exact (C5_start_tracker_selection demo_sys "" ⟨-1⟩ h).1 rfl
  · exact (C5_start_tracker_selection demo_sys "no such serial" ⟨-1⟩ h).2
      (by decide)

/-- Model of C's `atan2(y, x)`: the argument of the complex number
`x + y·i`, which is the angle in `(-π, π]` with the correct quadrant. -/
noncomputable def atan2 (y x : ℝ) : ℝ := Complex.arg ⟨x, y⟩

/-- `steamvr::matrix_to_euler` (steamvr.cpp:263-272): the three `atan2`
formulas on the 3x4 matrix, producing `(yaw, pitch, roll)` in radians. -/
noncomputable def matrix_to_euler (m : Fin 3 → Fin 4 → ℝ) : ℝ × ℝ × ℝ :=
  (atan2 (-(m 2 0)) (Real.sqrt (m 2 1 * m 2 1 + m 2 2 * m 2 2)),
   atan2 (m 2 1) (m 2 2),
   atan2 (m 1 0) (m 0 0))

/-- The six output slots written by `steamvr::data` (`data[TX]`, `data[TY]`,
`data[TZ]`, `data[Yaw]`, `data[Pitch]`, `data[Roll]`). -/
structure output_sample where
  tx : ℝ
  ty : ℝ
  tz : ℝ
  yaw : ℝ
  pitch : ℝ
  roll : ℝ

/-- `steamvr::data` (steamvr.cpp:225-247): a no-op while unbound
(`device_index == -1`); otherwise fetches the pose and, only when the fetch
is valid, overwrites all six slots — translation scaled by `c = 10` with the
sign flip on TX, Euler angles scaled by `180/π`.  `prev` is the prior
contents of the output array; `none` propagates the null-handle crash of
`get_pose`. -/
noncomputable def steamvr_data (v : vr_t) (st : steamvr_state)
    (prev : output_sample) : Option output_sample :=
  if st.device_index ≠ -1 then
    match get_pose v st.device_index with
    | none => none
    | some (ok, pose) =>
      if ok then
        let c : ℝ := 10
        let m := pose.mDeviceToAbsoluteTracking
        let e := matrix_to_euler m
        let r2d : ℝ := 180 / Real.pi
        some { tx := -(m 0 3) * c
               ty := m 1 3 * c
               tz := m 2 3 * c
               yaw := e.1 * r2d
               pitch := e.2.1 * r2d
               roll := e.2.2 * r2d }
      else some prev
  else some prev

/-- C6: for every matrix delivered by a valid pose fetch on a bound device,
the output sample is exactly `yaw = atan2(-m[2][0], sqrt(m[2][1]² + m[2][2]²))`,
`pitch = atan2(m[2][1], m[2][2])`, `roll = atan2(m[1][0], m[0][0])`, each
converted to degrees by the factor `180/π`, with translation
`tx = -m[0][3]·10`, `ty = m[1][3]·10`, `tz = m[2][3]·10` — the sign flip on
`tx` only. -/
theorem C6_data_euler_and_translation (sys : IVRSystem) (st : steamvr_state)
    (prev : output_sample) (pose : pose_t)
    (hbound : st.device_index ≠ -1)
    (hfetch : get_pose (some sys) st.device_index = some (true, pose)) :
    steamvr_data (some sys) st prev =
      some { tx := -(pose.mDeviceToAbsoluteTracking 0 3) * 10
             ty := pose.mDeviceToAbsoluteTracking 1 3 * 10
             tz := pose.mDeviceToAbsoluteTracking 2 3 * 10
             yaw := atan2 (-(pose.mDeviceToAbsoluteTracking 2 0))
                      (Real.sqrt
                        (pose.mDeviceToAbsoluteTracking 2 1 *
                           pose.mDeviceToAbsoluteTracking 2 1 +
                         pose.mDeviceToAbsoluteTracking 2 2 *
                           pose.mDeviceToAbsoluteTracking 2 2)) *
                    (180 / Real.pi)
             pitch := atan2 (pose.mDeviceToAbsoluteTracking 2 1)
                        (pose.mDeviceToAbsoluteTracking 2 2) * (180 / Real.pi)
             roll := atan2 (pose.mDeviceToAbsoluteTracking 1 0)
                       (pose.mDeviceToAbsoluteTracking 0 0) *
                     (180 / Real.pi) } := by
  unfold steamvr_data
  rw [if_pos hbound, hfetch]
  rfl

/-- Prior output contents used to instantiate the data-path theorems. -/
noncomputable def demo_prev : output_sample :=
  { tx := 1, ty := 2, tz := 3, yaw := 4, pitch := 5, roll := 6 }

/-- Witness for C6: the demo oracle's slot-0 pose is valid, and the theorem
applied at slot 0 yields the formula output. -/
theorem C6_data_euler_and_translation_witness :
    steamvr_data (some demo_sys) ⟨0⟩ demo_prev =
      some { tx := -((demo_sys.seatedPose 0).mDeviceToAbsoluteTracking 0 3) * 10
             ty := (demo_sys.seatedPose 0).mDeviceToAbsoluteTracking 1 3 * 10
             tz := (demo_sys.seatedPose 0).mDeviceToAbsoluteTracking 2 3 * 10
             yaw := atan2 (-((demo_sys.seatedPose 0).mDeviceToAbsoluteTracking 2 0))
                      (Real.sqrt
                        ((demo_sys.seatedPose 0).mDeviceToAbsoluteTracking 2 1 *
                           (demo_sys.seatedPose 0).mDeviceToAbsoluteTracking 2 1 +
                         (demo_sys.seatedPose 0).mDeviceToAbsoluteTracking 2 2 *
                           (demo_sys.seatedPose 0).mDeviceToAbsoluteTracking 2 2)) *
                    (180 / Real.pi)
             pitch := atan2 ((demo_sys.seatedPose 0).mDeviceToAbsoluteTracking 2 1)
                        ((demo_sys.seatedPose 0).mDeviceToAbsoluteTracking 2 2) *
                      (180 / Real.pi)
             roll := atan2 ((demo_sys.seatedPose 0).mDeviceToAbsoluteTracking 1 0)
                       ((demo_sys.seatedPose 0).mDeviceToAbsoluteTracking 0 0) *
                     (180 / Real.pi) } :=
  C6_data_euler_and_translation demo_sys ⟨0⟩ demo_prev (demo_sys.seatedPose 0)
    (by decide) (by rfl)

/-- C7: a `data` call made while unbound, or whose pose fetch reports
`valid:false`, writes none of the six output slots: the previous contents
come back whole, with no partial overwrite. -/
theorem C7_data_invalid_pose_no_update (v : vr_t) (st : steamvr_state)
    (prev : output_sample) :
    (st.device_index = -1 → steamvr_data v st prev = some prev) ∧
    (∀ p : pose_t, get_pose v st.device_index = some (false, p) →
      steamvr_data v st prev = some prev) := by
  constructor
  · intro h
    unfold steamvr_data
    rw [if_neg (by simp [h])]
  · intro p hfetch
    unfold steamvr_data
    by_cases hb : st.device_index ≠ -1
    · rw [if_pos hb, hfetch]
      rfl
    · rw [if_neg hb]

/-- Witness for C7: the unbound state on the null handle, and the bound
state on the oracle whose slot-0 pose is flagged invalid; both calls return
the prior output unchanged. -/
theorem C7_data_invalid_pose_no_update_witness :
    steamvr_data none ⟨-1⟩ demo_prev = some demo_prev ∧
    steamvr_data (some demo_sys_invalid_pose) ⟨0⟩ demo_prev =
      some demo_prev :=
  ⟨(C7_data_invalid_pose_no_update none ⟨-1⟩ demo_prev).1 rfl,
   (C7_data_invalid_pose_no_update (some demo_sys_invalid_pose) ⟨0⟩
      demo_prev).2 pose_zero (by rfl)⟩

/-- `steamvr::center` (steamvr.cpp:249-261): under the lock, a live handle
issues `ResetSeatedZeroPose` (a void, fire-and-forget hardware command whose
outcome — modelled by the ignored `outcome` argument — is never consulted);
the function then returns `true` unconditionally and touches no binding
state. -/
def steamvr_center (v : vr_t) (outcome : Bool) (st : steamvr_state) :
    Bool × steamvr_state :=
  match v, outcome with
  | none, _ => (true, st)
  | some _, _ => (true, st)

/-- C8: for every handle state (null or live) and every outcome of the
hardware reset command, `center` returns `true` and leaves `device_index`
(the whole binding state) unchanged. -/
theorem C8_center_always_true_state_unchanged (v : vr_t) (outcome : Bool)
    (st : steamvr_state) :
    (steamvr_center v outcome st).1 = true ∧
    (steamvr_center v outcome st).2 = st := by
  cases v <;> exact ⟨rfl, rfl⟩

/-- The per-platform bound-key record `K` of shortcuts.h (on win32 a value
record with keycode/guid/modifier fields; on other platforms a global
shortcut object).  Its contents are irrelevant to the reload logic, so it is
an opaque token. -/
structure K where
  token : Nat
deriving DecidableEq, Repr

/-- `key_opts`: the persisted description of one shortcut (keycode string,
joystick guid, button bits). -/
structure key_opts where
  keycode : String
  guid : String
  button : Nat
deriving DecidableEq, Repr

/-- The `std::function<void(bool)>` handler stored with each binding,
modelled as an opaque token (the wrapper lambda pushed by `reload` invokes
exactly the element's own handler). -/
abbrev handler_fun := Nat

/-- The loop of `Shortcuts::reload` (shortcuts.cpp:112-135): one iteration
per element of `keys_`, each binding the element's `key_opts` via
`bind_shortcut` and appending one `(K, fun, held)` tuple to the freshly
reset vector.  `bind_key` abstracts `Shortcuts::bind_shortcut`
(shortcuts.cpp:30-80), whose body calls platform helpers (`win_key::from_qt`,
`QxtGlobalShortcut`) that live outside src/. -/
def reload_loop (bind_key : key_opts → Bool → K) :
    List (key_opts × handler_fun × Bool) → List (K × handler_fun × Bool) →
    List (K × handler_fun × Bool)
  | [], acc => acc
  | kk :: rest, acc =>
    reload_loop bind_key rest
      (acc ++ [(bind_key kk.1 kk.2.2, kk.2.1, kk.2.2)])

/-- `Shortcuts::reload` (shortcuts.cpp:107-136): `keys = std::vector<tt>()`
discards the previous binding vector (`old`), then the loop rebuilds it from
`keys_`. -/
def Shortcuts.reload (bind_key : key_opts → Bool → K)
    (_old : List (K × handler_fun × Bool))
    (keys_ : List (key_opts × handler_fun × Bool)) :
    List (K × handler_fun × Bool) :=
  reload_loop bind_key keys_ []

/-- The reload loop appends, in order, one rebuilt entry per input
element. -/
theorem reload_loop_eq (bind_key : key_opts → Bool → K)
    (keys_ : List (key_opts × handler_fun × Bool))
    (acc : List (K × handler_fun × Bool)) :
    reload_loop bind_key keys_ acc =
      acc ++ keys_.map (fun kk => (bind_key kk.1 kk.2.2, kk.2.1, kk.2.2)) := by
  induction keys_ generalizing acc with
  | nil => simp [reload_loop]
  | cons kk rest ih =>
    rw [reload_loop, ih, List.map_cons]
    simp

/-- C10: for every previous binding vector and every input list `keys_`,
`Shortcuts::reload` discards the old vector entirely and afterwards the
internal vector is exactly one `(key, handler, held)` tuple per element of
`keys_`, in the order of `keys_` — the key bound from the element's
`key_opts` and `held` flag, the handler and `held` flag copied from the
element. -/
theorem C10_reload_rebuilds_bindings (bind_key : key_opts → Bool → K)
    (old : List (K × handler_fun × Bool))
    (keys_ : List (key_opts × handler_fun × Bool)) :
    Shortcuts.reload bind_key old keys_ =
      keys_.map (fun kk => (bind_key kk.1 kk.2.2, kk.2.1, kk.2.2)) ∧
    (Shortcuts.reload bind_key old keys_).length = keys_.length := by
  have h := reload_loop_eq bind_key keys_ []
  rw [List.nil_append] at h
  exact ⟨h, by rw [Shortcuts.reload, h, List.length_map]⟩
